import Mathlib

/- Verification development for the Weather alert/forecast processing pipeline.

   The definitions below are a shallow embedding of the JavaScript sources under
   src/backend (services/duplicateProtection.js, services/alertFormatter.js,
   services/weatherConditionFetcher.js, services/weatherConditionProcessor.js,
   database/db.js, and the forecast scheduler functions timeToCron and
   updateForecastTime).  JavaScript numbers are modelled as ℚ where fractional
   thresholds matter and as Int for epoch timestamps; NaN and floating-point
   rounding are outside the model.  JavaScript strings are modelled as Lean
   String (operations are implemented on the underlying character list, ASCII
   case mapping); absent object fields are Option none; JavaScript truthiness
   is modelled explicitly (empty string, the number 0 and absent values are
   falsy).  Calls to the append-only log sink (db.addLog) are elided: they do
   not affect any value or state observed by the theorems.  The global clock
   Date.now() and the host date parser new Date(string).getTime() are threaded
   as explicit parameters. -/

namespace Weather

/-! ## JavaScript primitive operations -/

/-- Truthiness of an optional string: JavaScript treats an absent value and
the empty string as falsy. -/
def strTruthy : Option String → Bool
  | none => false
  | some s => !(s == "")

/-- JavaScript `a || b` on optional strings (keeps b whatever it is when a is
falsy). -/
def orStr (a b : Option String) : Option String :=
  if strTruthy a then a else b

/-- JavaScript `a || d` where d is a (truthy) default string literal. -/
def orStrVal (a : Option String) (d : String) : String :=
  if strTruthy a then a.getD "" else d

/-- JavaScript `a || b || null` on optional strings: first truthy value,
otherwise null. -/
def orStrNull (a b : Option String) : Option String :=
  if strTruthy a then a else if strTruthy b then b else none

/-- A JavaScript primitive value that is either a string or an (integral)
number; used where the source reads fields that may carry either. -/
inductive JsVal where
  | vStr (s : String)
  | vNum (n : Int)
deriving DecidableEq

/-- Truthiness of a JsVal: the empty string and the number 0 are falsy. -/
def jsValTruthy : JsVal → Bool
  | .vStr s => !(s == "")
  | .vNum n => !(n == 0)

/-- Truthiness of an optional JsVal. -/
def valTruthy : Option JsVal → Bool
  | none => false
  | some v => jsValTruthy v

/-- JavaScript `a || b` on optional JsVal values. -/
def orVal (a b : Option JsVal) : Option JsVal :=
  if valTruthy a then a else b

/-- JavaScript String(n) for an integral number. -/
def intToStr (n : Int) : String := toString n

/-- JavaScript String(v) conversion of a JsVal. -/
def jsValToStr : JsVal → String
  | .vStr s => s
  | .vNum n => intToStr n

/-- Decimal digit test on the code point, as in the character class [0-9]. -/
def isDigitC (c : Char) : Bool :=
  48 ≤ c.toNat && c.toNat ≤ 57

/-- Numeric value of a list of decimal digit characters. -/
def digitsVal (l : List Char) : Nat :=
  l.foldl (fun acc c => acc * 10 + (c.toNat - 48)) 0

/-- JavaScript parseInt on a string: skip leading whitespace, optional sign,
then the longest run of leading decimal digits; none models NaN.  (The
hexadecimal 0x prefix of parseInt is not modelled; no input in this code base
uses it.) -/
def jsParseIntStr (s : String) : Option Int :=
  let t := s.data.dropWhile Char.isWhitespace
  match t with
  | '-' :: r =>
      let ds := r.takeWhile isDigitC
      if ds.length = 0 then none else some (-(digitsVal ds : Int))
  | '+' :: r =>
      let ds := r.takeWhile isDigitC
      if ds.length = 0 then none else some (digitsVal ds : Int)
  | r =>
      let ds := r.takeWhile isDigitC
      if ds.length = 0 then none else some (digitsVal ds : Int)

/-- JavaScript parseInt applied to a JsVal: on a number it is the number
itself (all numbers in this model are integral), on a string it parses. -/
def jsParseIntVal : JsVal → Option Int
  | .vNum n => some n
  | .vStr s => jsParseIntStr s

/-- ASCII lower-casing of a string, as used by toLowerCase on the inputs in
this code base (all relevant comparisons are against ASCII keywords). -/
def jsToLowerStr (s : String) : String :=
  String.mk (s.data.map Char.toLower)

/-- ASCII upper-casing of a string (toUpperCase). -/
def jsToUpperStr (s : String) : String :=
  String.mk (s.data.map Char.toUpper)

/-- Substring test on character lists, needle first. -/
def isSubstrList (sub : List Char) : List Char → Bool
  | [] => decide (sub = [])
  | c :: t => sub.isPrefixOf (c :: t) || isSubstrList sub t

/-- JavaScript hay.includes(sub). -/
def strIncludes (hay sub : String) : Bool :=
  isSubstrList sub.data hay.data

/-- JavaScript array.join(sep). -/
def joinSep (sep : String) : List String → String
  | [] => ""
  | [x] => x
  | x :: xs => x ++ sep ++ joinSep sep xs

/-- JavaScript string.slice(0, n). -/
def jsSlice (s : String) (n : Nat) : String :=
  String.mk (s.data.take n)

/-- The base64 alphabet. -/
def b64Alphabet : List Char :=
  "ABCDEFGHIJKLMNOPQRSTUVWXYZabcdefghijklmnopqrstuvwxyz0123456789+/".data

/-- Character for a 6-bit group. -/
def b64c (n : Nat) : Char := b64Alphabet.getD n 'A'

/-- Standard base64 of a byte list, with = padding. -/
def base64Bytes : List Nat → List Char
  | [] => []
  | [a] => [b64c (a / 4), b64c (a % 4 * 16), '=', '=']
  | [a, b] => [b64c (a / 4), b64c (a % 4 * 16 + b / 16), b64c (b % 16 * 4), '=']
  | a :: b :: c :: rest =>
      b64c (a / 4) :: b64c (a % 4 * 16 + b / 16) :: b64c (b % 16 * 4 + c / 64)
        :: b64c (c % 64) :: base64Bytes rest

/-- JavaScript Buffer.from(s).toString(base64).  The strings fed to this
function in the source are ASCII, for which the UTF-8 bytes are the code
points. -/
def jsBufferBase64 (s : String) : String :=
  String.mk (base64Bytes (s.data.map Char.toNat))

/-- Truthiness of an optional rational (0 is falsy). -/
def qTruthy : Option ℚ → Bool
  | none => false
  | some q => !(q == 0)

/-- Rendering of a number inside a template string.  JavaScript float
formatting is approximated by the Lean rational printer; nothing proved below
depends on this rendering. -/
def qToStr (q : ℚ) : String := toString q

/-! ## The ECMAScript Date model

Date.prototype.toISOString is modelled exactly on the proleptic Gregorian
calendar over UTC, for time values within the ECMAScript range of
8,640,000,000,000,000 milliseconds around the epoch; outside that range a
Date is invalid and toISOString throws, which the model renders as none.
Year/month/day are computed with the standard civil-from-days algorithm
(era = 400 Gregorian years = 146097 days). -/

/-- Decimal digit characters of n, most significant first; fuel-based so the
kernel can evaluate it (fuel 12 covers every component rendered below). -/
def natDigitsAux : Nat → Nat → List Char
  | 0, _ => []
  | f + 1, n =>
      if n < 10 then [Nat.digitChar n]
      else natDigitsAux f (n / 10) ++ [Nat.digitChar (n % 10)]

/-- n rendered in decimal, left padded with zeros to width k. -/
def padNat (k n : Nat) : String :=
  let ds := natDigitsAux 12 n
  String.mk (List.replicate (k - ds.length) '0' ++ ds)

/-- The broken-down UTC components of a time value. -/
structure DateParts where
  year : Int
  month : Nat
  day : Nat
  hour : Nat
  minute : Nat
  second : Nat
  milli : Nat
deriving DecidableEq

/-- The year-of-era of a day-of-era (civil-from-days year formula). -/
def yoeOf (doe : Nat) : Nat :=
  (doe - doe / 1460 + doe / 36524 - doe / 146096) / 365

/-- The first day-of-era of a year-of-era below 400. -/
def yearStart (y : Nat) : Nat := 365 * y + y / 4 - y / 100

/-- The last day-of-era belonging to a year-of-era below 400. -/
def yearEnd (y : Nat) : Nat :=
  if y = 399 then 146096 else yearStart (y + 1) - 1

/-- Civil components of the time value ms (milliseconds since the epoch).
All arithmetic is lifted into Nat by the exact shift 8,640,000,000,000,000 ms
= 100,000,000 days; 680 eras are added back before splitting days into an era
and a day-of-era, so 65428 = 719468 - 100000000 + 680 * 146097. -/
def epochToParts (ms : Int) : DateParts :=
  let n : Nat := (ms + 8640000000000000).toNat
  let dayShift := n / 86400000
  let rem := n % 86400000
  let zN := dayShift + 65428
  let era : Int := (zN / 146097 : Nat) - 680
  let doe := zN % 146097
  let yoe := yoeOf doe
  let doy := doe - yearStart yoe
  let mp := (5 * doy + 2) / 153
  let d := doy - (153 * mp + 2) / 5 + 1
  let m := if mp < 10 then mp + 3 else mp - 9
  { year := (yoe : Int) + era * 400 + (if m ≤ 2 then 1 else 0)
    month := m
    day := d
    hour := rem / 3600000
    minute := rem / 60000 % 60
    second := rem / 1000 % 60
    milli := rem % 1000 }

/-- The ISO-8601 rendering used by toISOString: four-digit years for 0..9999,
otherwise the expanded six-digit form with an explicit sign. -/
def isoRender (p : DateParts) : String :=
  (if 0 ≤ p.year ∧ p.year ≤ 9999 then padNat 4 p.year.toNat
   else if p.year < 0 then "-" ++ padNat 6 (-p.year).toNat
   else "+" ++ padNat 6 p.year.toNat) ++
  "-" ++ padNat 2 p.month ++ "-" ++ padNat 2 p.day ++
  "T" ++ padNat 2 p.hour ++ ":" ++ padNat 2 p.minute ++ ":" ++ padNat 2 p.second ++
  "." ++ padNat 3 p.milli ++ "Z"

/-- new Date(ms).toISOString(): none models the RangeError thrown on an
invalid (out-of-range) time value. -/
def jsToISOString (ms : Int) : Option String :=
  if ms < -8640000000000000 ∨ 8640000000000000 < ms then none
  else some (isoRender (epochToParts ms))

/-- The shape of an ISO-8601 date-time string: some in-range broken-down
components render to it. -/
def IsISO8601 (str : String) : Prop :=
  ∃ p : DateParts, str = isoRender p ∧
    1 ≤ p.month ∧ p.month ≤ 12 ∧ 1 ≤ p.day ∧ p.day ≤ 31 ∧
    p.hour ≤ 23 ∧ p.minute ≤ 59 ∧ p.second ≤ 59 ∧ p.milli ≤ 999 ∧
    -999999 ≤ p.year ∧ p.year ≤ 999999

/-! ## alertFormatter.js -/

/-- formatTimestamp (src/backend/services/alertFormatter.js, lines 236-257).
The input is an optional JsVal (none = absent/null).  dateParse models the
host parser new Date(string).getTime(), with none for NaN (unparseable).  The
try/catch around the body is rendered by jsToISOString returning none where
toISOString would throw. -/
def formatTimestamp (dateParse : String → Option Int) : Option JsVal → Option String
  | none => none
  | some v =>
    if !(jsValTruthy v) then none
    else
      match v with
      | .vNum n =>
          let ts := if n < 10000000000 then n * 1000 else n
          jsToISOString ts
      | .vStr s =>
          match dateParse s with
          | some t => jsToISOString t
          | none => none

/-- mapNWSSeverity (alertFormatter.js, lines 38-50). -/
def mapNWSSeverity (event : Option String) : String :=
  if !(strTruthy event) then "Unknown"
  else
    let eventLower := jsToLowerStr (event.getD "")
    if strIncludes eventLower "warning" then "Warning"
    else if strIncludes eventLower "watch" then "Watch"
    else if strIncludes eventLower "advisory" then "Advisory"
    else if strIncludes eventLower "statement" then "Statement"
    else if strIncludes eventLower "emergency" then "Extreme"
    else "Unknown"

/-- mapOpenWeatherSeverity (alertFormatter.js, lines 87-100).  A tags value
that is not an array is modelled as none. -/
def mapOpenWeatherSeverity (tags : Option (List String)) : String :=
  match tags with
  | none => "Unknown"
  | some l =>
    let tagStr := jsToLowerStr (joinSep " " l)
    if strIncludes tagStr "extreme" then "Extreme"
    else if strIncludes tagStr "severe" then "Severe"
    else if strIncludes tagStr "warning" then "Warning"
    else if strIncludes tagStr "watch" then "Watch"
    else if strIncludes tagStr "advisory" then "Advisory"
    else if strIncludes tagStr "moderate" then "Moderate"
    else "Unknown"

/-- mapSeverity (alertFormatter.js, lines 148-190).  Note the final fallback
returns the original unmapped value. -/
def mapSeverity (value : Option JsVal) : String :=
  if !(valTruthy value) then "Unknown"
  else
    let v := value.getD (.vStr "")
    let valueStr := jsToLowerStr (jsValToStr v)
    if valueStr == "w" then "Warning"
    else if valueStr == "a" then "Watch"
    else if valueStr == "y" then "Advisory"
    else if valueStr == "s" then "Statement"
    else if valueStr == "f" then "Forecast"
    else if valueStr == "o" then "Outlook"
    else if valueStr == "n" then "Synopsis"
    else
      match jsParseIntVal v with
      | some priorityNum =>
          if priorityNum ≤ 2 then "Extreme"
          else if priorityNum ≤ 4 then "Severe"
          else if priorityNum ≤ 6 then "Moderate"
          else if priorityNum ≤ 8 then "Minor"
          else "Unknown"
      | none =>
          if valueStr == "extreme" then "Extreme"
          else if valueStr == "severe" then "Severe"
          else if valueStr == "moderate" then "Moderate"
          else if valueStr == "minor" then "Minor"
          else if valueStr == "warning" then "Warning"
          else if valueStr == "watch" then "Watch"
          else if valueStr == "advisory" then "Advisory"
          else jsValToStr v

/-- A location record; only the fields read by the formatter are modelled. -/
structure Location where
  id : String := ""
  name : Option String := none
  zipCode : Option String := none
  latitude : Option ℚ := none
  longitude : Option ℚ := none

/-- An element of a zone array: either a string or a zone object with
name/county/zone fields. -/
inductive ZoneElem where
  | zstr (s : String)
  | zobj (name county zone : Option String)
deriving DecidableEq

/-- The nested timestamps object of an XWeather alert. -/
structure RawTimestamps where
  begins : Option JsVal := none
  expires : Option JsVal := none
  issued : Option JsVal := none

/-- The fields read off the details object (or off the alert itself when
details is absent). -/
structure RawDetails where
  id : Option String := none
  name : Option String := none
  type : Option String := none
  significance : Option JsVal := none
  priority : Option JsVal := none
  body : Option String := none
  desc : Option String := none
  zone : Option String := none
  areas : Option (List ZoneElem) := none
  certainty : Option String := none
  urgency : Option String := none
  timestamp : Option JsVal := none
  issued : Option JsVal := none
  expires : Option JsVal := none

/-- A raw provider alert.  All fields any formatter path reads are present as
optional values; none is an absent field.  start and «end» are the
OpenWeatherMap unix-second fields. -/
structure RawAlert where
  id : Option String := none
  event : Option String := none
  severity : Option String := none
  description : Option String := none
  headline : Option String := none
  areaDesc : Option String := none
  onset : Option String := none
  effective : Option String := none
  expires : Option String := none
  ends : Option String := none
  sent : Option String := none
  locationName : Option String := none
  certainty : Option String := none
  urgency : Option String := none
  instruction : Option String := none
  senderName : Option String := none
  start : Option Int := none
  «end» : Option Int := none
  sender_name : Option String := none
  tags : Option (List String) := none
  details : Option RawDetails := none
  timestamps : Option RawTimestamps := none
  name : Option String := none
  type : Option String := none
  significance : Option JsVal := none
  priority : Option JsVal := none
  body : Option String := none
  desc : Option String := none
  zone : Option String := none
  areas : Option (List ZoneElem) := none
  timestamp : Option JsVal := none
  issued : Option JsVal := none

/-- JavaScript alert.details || alert: when the details object is absent the
detail fields are read off the alert itself. -/
def detailsOf (r : RawAlert) : RawDetails :=
  match r.details with
  | some d => d
  | none =>
      { id := r.id, name := r.name, type := r.type, significance := r.significance
        priority := r.priority, body := r.body, desc := r.desc, zone := r.zone
        areas := r.areas, certainty := r.certainty, urgency := r.urgency
        timestamp := r.timestamp, issued := r.issued
        expires := r.expires.map .vStr }

/-- The canonical normalized alert.  Fields emitted only on some provider
paths (instruction, sender, tags) are optional with none for absent. -/
structure FormattedAlert where
  alert_id : String
  event : String
  severity : String
  description : String
  headline : String
  area : String
  starts_at : Option String
  ends_at : Option String
  issued_at : Option String
  location : String
  location_id : String
  source : String
  raw_type : String
  certainty : String
  urgency : String
  instruction : Option String := none
  sender : Option String := none
  tags : Option (List String) := none

/-- formatLocationName (alertFormatter.js, lines 215-231). -/
def formatLocationName (location : Location) : String :=
  let parts : List String :=
    (if strTruthy location.name then [location.name.getD ""] else []) ++
    (if strTruthy location.zipCode then ["ZIP: " ++ location.zipCode.getD ""] else []) ++
    (if qTruthy location.latitude && qTruthy location.longitude then
        ["(" ++ qToStr (location.latitude.getD 0) ++ ", " ++
          qToStr (location.longitude.getD 0) ++ ")"]
      else [])
  let s := joinSep " " parts
  if s == "" then "Unknown Location" else s

/-- generateAlertId (alertFormatter.js, lines 135-143); now is Date.now(). -/
def generateAlertId (now : Int) (alert : RawAlert) : String :=
  let d := detailsOf alert
  let parts : List String :=
    [ orStrVal d.type "unknown",
      (match d.timestamp with
       | some v => if jsValTruthy v then jsValToStr v else intToStr now
       | none => intToStr now),
      orStrVal d.zone "" ]
  jsSlice (jsBufferBase64 (joinSep "-" parts)) 24

/-- The argument details.zone || details.areas || [] of formatArea. -/
inductive ZonesArg where
  | zstr (s : String)
  | zarr (l : List ZoneElem)

/-- Builds the zones argument passed to formatArea: a truthy zone string wins,
otherwise the areas array (arrays are truthy even when empty), otherwise the
empty array. -/
def zonesArgOf (d : RawDetails) : ZonesArg :=
  if strTruthy d.zone then .zstr (d.zone.getD "")
  else match d.areas with
       | some l => .zarr l
       | none => .zarr []

/-- formatArea (alertFormatter.js, lines 195-210).  A zone object with no
name/county/zone field joins as the object itself, which JavaScript renders
as [object Object]. -/
def formatArea (zones : ZonesArg) (location : Location) : String :=
  match zones with
  | .zarr l =>
      if l.length > 0 then
        joinSep ", " (l.map (fun z =>
          match z with
          | .zstr s => s
          | .zobj name county zone =>
              orStrVal name (orStrVal county (orStrVal zone "[object Object]"))))
      else orStrVal location.name (orStrVal location.zipCode "Unknown Area")
  | .zstr s =>
      if !(s == "") then s
      else orStrVal location.name (orStrVal location.zipCode "Unknown Area")

/-- The settings fields read by the functions modelled here. -/
structure Settings where
  apiProvider : Option String := none
  weatherConditionGoodWeatherInterval : Option Int := none
  forecastTime : Option String := none

/-- formatNWSAlert (alertFormatter.js, lines 13-33); now is Date.now(). -/
def formatNWSAlert (now : Int) (rawAlert : RawAlert) (location : Location) :
    FormattedAlert :=
  { alert_id := orStrVal rawAlert.id (generateAlertId now rawAlert)
    event := orStrVal rawAlert.event "Weather Alert"
    severity := if strTruthy rawAlert.severity then rawAlert.severity.getD ""
                else mapNWSSeverity rawAlert.event
    description := orStrVal rawAlert.description ""
    headline := orStrVal (orStr rawAlert.headline rawAlert.event) ""
    area := orStrVal rawAlert.areaDesc (formatLocationName location)
    starts_at := orStrNull rawAlert.onset rawAlert.effective
    ends_at := orStrNull rawAlert.expires rawAlert.ends
    issued_at := orStrNull rawAlert.sent rawAlert.effective
    location := orStrVal rawAlert.locationName (formatLocationName location)
    location_id := location.id
    source := "National Weather Service"
    raw_type := orStrVal rawAlert.event ""
    certainty := orStrVal rawAlert.certainty ""
    urgency := orStrVal rawAlert.urgency ""
    instruction := some (orStrVal rawAlert.instruction "")
    sender := some (orStrVal rawAlert.senderName "NWS")
    tags := none }

/-- formatOpenWeatherMapAlert (alertFormatter.js, lines 55-82).  The hybrid
check first dispatches alerts that look like NWS alerts to formatNWSAlert.
new Date(start * 1000).toISOString() is jsToISOString (start * 1000); the
code has no try/catch here, so the none produced for an out-of-range value
stands for an exception that this model does not propagate (no claim below
exercises that case). -/
def formatOpenWeatherMapAlert (now : Int) (rawAlert : RawAlert)
    (location : Location) : FormattedAlert :=
  if strTruthy rawAlert.event &&
      (strTruthy rawAlert.headline || strTruthy rawAlert.areaDesc ||
        strTruthy rawAlert.senderName) then
    formatNWSAlert now rawAlert location
  else
    let startTime := match rawAlert.start with
      | some n => if !(n == 0) then jsToISOString (n * 1000) else none
      | none => none
    let endTime := match rawAlert.«end» with
      | some n => if !(n == 0) then jsToISOString (n * 1000) else none
      | none => none
    { alert_id := generateAlertId now rawAlert
      event := orStrVal rawAlert.event "Weather Alert"
      severity := mapOpenWeatherSeverity rawAlert.tags
      description := orStrVal rawAlert.description ""
      headline := orStrVal rawAlert.event ""
      area := orStrVal rawAlert.sender_name (formatLocationName location)
      starts_at := startTime
      ends_at := endTime
      issued_at := startTime
      location := formatLocationName location
      location_id := location.id
      source := "OpenWeatherMap"
      raw_type := orStrVal rawAlert.event ""
      certainty := ""
      urgency := ""
      instruction := none
      sender := none
      tags := some (rawAlert.tags.getD []) }

/-- formatXWeatherAlert (alertFormatter.js, lines 108-130).  settings is the
value of db.getSettings(); dateParse and now are the host clock services. -/
def formatXWeatherAlert (now : Int) (dateParse : String → Option Int)
    (settings : Settings) (rawAlert : RawAlert) (location : Location) :
    FormattedAlert :=
  let details := detailsOf rawAlert
  let timestamps := rawAlert.timestamps.getD {}
  { alert_id := orStrVal details.id
      (orStrVal rawAlert.id (generateAlertId now rawAlert))
    event := orStrVal details.name (orStrVal details.type "")
    severity := mapSeverity (orVal details.significance details.priority)
    description := orStrVal details.body (orStrVal details.desc "")
    headline := orStrVal details.name ""
    area := formatArea (zonesArgOf details) location
    starts_at := formatTimestamp dateParse
      (orVal timestamps.begins (orVal details.timestamp details.issued))
    ends_at := formatTimestamp dateParse (orVal timestamps.expires details.expires)
    issued_at := formatTimestamp dateParse (orVal timestamps.issued details.issued)
    location := formatLocationName location
    location_id := location.id
    source := orStrVal settings.apiProvider "XWeather"
    raw_type := orStrVal details.type ""
    certainty := orStrVal details.certainty ""
    urgency := orStrVal details.urgency ""
    instruction := none
    sender := none
    tags := none }

/-- formatAlerts (alertFormatter.js, lines 266-281).  A non-array rawAlerts
value is modelled as none and yields []. -/
def formatAlerts (now : Int) (dateParse : String → Option Int)
    (settings : Settings) (rawAlerts : Option (List RawAlert))
    (location : Location) : List FormattedAlert :=
  match rawAlerts with
  | none => []
  | some l =>
    let provider := orStrVal settings.apiProvider "openweathermap"
    l.map (fun alert =>
      if provider == "openweathermap" then
        formatOpenWeatherMapAlert now alert location
      else
        formatXWeatherAlert now dateParse settings alert location)

/-- A canonical alert viewed again as a raw provider object, for re-applying
the normalizer to its own output.  Every raw field name the formatter reads
is looked up on the canonical record: only the field names both sides share
(event, severity, description, headline, certainty, urgency, instruction,
tags) are present; in particular the canonical record has no id, details,
type, timestamp or zone field, those being named alert_id, raw_type and so on
on the canonical side. -/
def alertToRaw (a : FormattedAlert) : RawAlert :=
  { event := some a.event
    severity := some a.severity
    description := some a.description
    headline := some a.headline
    certainty := some a.certainty
    urgency := some a.urgency
    instruction := a.instruction
    tags := a.tags }

/-! ## database/db.js: the stored state -/

/-- The per-location entry of the last-alerts file: the delivered alert ids
and the updatedAt stamp written by setLastAlertForLocation. -/
structure LedgerEntry where
  alertIds : List String
  updatedAt : String
deriving DecidableEq

/-- The nested weather object of a stored condition record (only the field
read by shouldSendConditionUpdate is modelled). -/
structure CondWeather where
  temperature : ℚ

/-- The fields of a formatted condition record that shouldSendConditionUpdate
reads back. -/
structure StoredCondition where
  classification : String
  isBadWeather : Bool
  timestamp : String
  weather : CondWeather

/-- The database state: the last-alerts file, the last-conditions store and
the settings blob.  Maps are total functions to optional entries. -/
structure DbState where
  lastAlerts : String → Option LedgerEntry
  lastConditions : String → Option StoredCondition
  settings : Settings

/-- getLastAlertIdsForLocation (db.js, lines 251-254): the stored id list or
[] when the location has no entry. -/
def getLastAlertIdsForLocation (st : DbState) (locationId : String) : List String :=
  match st.lastAlerts locationId with
  | some e => e.alertIds
  | none => []

/-- setLastAlertForLocation (db.js, lines 242-249): whole-entry replacement
with a fresh updatedAt stamp (the now argument models new Date().toISOString()). -/
def setLastAlertForLocation (st : DbState) (now : String) (locationId : String)
    (alertIds : List String) : DbState :=
  { st with lastAlerts := fun l =>
      if l = locationId then some { alertIds := alertIds, updatedAt := now }
      else st.lastAlerts l }

/-- Modelled from the spec: db.getLastConditions, absent from
src/backend/database/db.js (only its callers in
weatherConditionProcessor.js are in the sources) — per spec section 6 the
settings and condition stores are plain get/set key-value collections, so the
getter returns the stored map unchanged. -/
def getLastConditions (st : DbState) : String → Option StoredCondition :=
  st.lastConditions

/-- Modelled from the spec: db.updateLastConditions, absent from
src/backend/database/db.js — the whole-map setter of the key-value
collection. -/
def updateLastConditions (st : DbState) (m : String → Option StoredCondition) :
    DbState :=
  { st with lastConditions := m }

/-! ## services/duplicateProtection.js -/

/-- filterNewAlerts (duplicateProtection.js, lines 16-28).  The function only
reads the database (its sole db call is getLastAlertIdsForLocation), so it
returns a list and no state.  The JavaScript null-array guard and the length
check collapse to the length check on a Lean list. -/
def filterNewAlerts (st : DbState) (locationId : String)
    (alerts : List FormattedAlert) : List FormattedAlert :=
  if alerts.length = 0 then []
  else
    let lastAlertIds := getLastAlertIdsForLocation st locationId
    alerts.filter (fun alert => !(lastAlertIds.contains alert.alert_id))

/-- markAlertsSent (duplicateProtection.js, lines 36-56).  allIds.slice(-100)
keeps the last hundred elements; the db.addLog call is elided. -/
def markAlertsSent (st : DbState) (now : String) (locationId : String)
    (alerts : List FormattedAlert) : DbState :=
  if alerts.length = 0 then st
  else
    let existingIds := getLastAlertIdsForLocation st locationId
    let newIds := alerts.map (fun alert => alert.alert_id)
    let allIds := existingIds ++ newIds
    let trimmedIds := allIds.drop (allIds.length - 100)
    setLastAlertForLocation st now locationId trimmedIds

/-! ## services/weatherConditionFetcher.js: classifyWeather -/

/-- The conditions record destructured by classifyWeather.  Numbers are ℚ;
visibility may be null (the OpenWeatherMap fetcher stores null when the field
is absent). -/
structure WeatherConditions where
  temp : ℚ
  feelsLike : ℚ
  humidity : ℚ
  windSpeed : ℚ
  description : String
  rain : ℚ
  snow : ℚ
  visibility : Option ℚ

/-- One entry of the badReasons list.  The constructors carry the numeric
payloads of the template strings pushed by the source; the exact rendered
text is produced by reasonText below. -/
inductive Reason where
  | veryHot (t : ℚ)
  | freezing (t : ℚ)
  | uncomfortable (t : ℚ)
  | feelsLikeR (f : ℚ)
  | strongWinds (w : ℚ)
  | windy (w : ℚ)
  | heavyRain (r : ℚ)
  | lightRain (r : ℚ)
  | snowR (s : ℚ)
  | veryHumid (h : ℚ)
  | poorVisibility (v : ℚ)
  | thunderstormConditions
  | severeWeather
  | reducedVisibility

/-- The template string of a reason (numeric rendering via qToStr). -/
def reasonText : Reason → String
  | .veryHot t => "Very hot (" ++ qToStr t ++ "°F)"
  | .freezing t => "Freezing (" ++ qToStr t ++ "°F)"
  | .uncomfortable t => "Uncomfortable temperature (" ++ qToStr t ++ "°F)"
  | .feelsLikeR f => "Feels like " ++ qToStr f ++ "°F"
  | .strongWinds w => "Strong winds (" ++ qToStr w ++ " mph)"
  | .windy w => "Windy (" ++ qToStr w ++ " mph)"
  | .heavyRain r => "Heavy rain (" ++ qToStr r ++ " inches)"
  | .lightRain r => "Light rain (" ++ qToStr r ++ " inches)"
  | .snowR s => "Snow (" ++ qToStr s ++ " inches)"
  | .veryHumid h => "Very humid (" ++ qToStr h ++ "%)"
  | .poorVisibility v => "Poor visibility (" ++ qToStr v ++ " miles)"
  | .thunderstormConditions => "Thunderstorm conditions"
  | .severeWeather => "Severe weather"
  | .reducedVisibility => "Reduced visibility conditions"

/-- The mutable pair (severity, badReasons) threaded through classifyWeather. -/
abbrev ClassState := String × List Reason

/-- The temperature checks of classifyWeather (lines 22-31). -/
def tempStep (temp : ℚ) (st : ClassState) : ClassState :=
  if temp > 95 then ("bad", st.2 ++ [.veryHot temp])
  else if temp < 32 then ("bad", st.2 ++ [.freezing temp])
  else if temp < 40 ∨ temp > 90 then
    (if st.1 = "good" then "fair" else st.1, st.2 ++ [.uncomfortable temp])
  else st

/-- The feels-like check (lines 34-39). -/
def feelsStep (temp feelsLike : ℚ) (st : ClassState) : ClassState :=
  if feelsLike ≠ temp ∧ |feelsLike - temp| > 10 then
    if feelsLike > 100 ∨ feelsLike < 25 then
      ("bad", st.2 ++ [.feelsLikeR feelsLike])
    else st
  else st

/-- The wind checks (lines 42-48). -/
def windStep (windSpeed : ℚ) (st : ClassState) : ClassState :=
  if windSpeed > 25 then ("bad", st.2 ++ [.strongWinds windSpeed])
  else if windSpeed > 15 then
    (if st.1 = "good" then "fair" else st.1, st.2 ++ [.windy windSpeed])
  else st

/-- The rain checks (lines 51-57); rain && rain > x is falsy when rain is 0. -/
def rainStep (rain : ℚ) (st : ClassState) : ClassState :=
  if rain ≠ 0 ∧ rain > 0.5 then ("bad", st.2 ++ [.heavyRain rain])
  else if rain ≠ 0 ∧ rain > 0 then
    (if st.1 = "good" then "fair" else st.1, st.2 ++ [.lightRain rain])
  else st

/-- The snow check (lines 59-62). -/
def snowStep (snow : ℚ) (st : ClassState) : ClassState :=
  if snow ≠ 0 ∧ snow > 0 then ("bad", st.2 ++ [.snowR snow])
  else st

/-- The humidity check (lines 65-68): the reason is pushed and the severity
only moves to fair when it is not already bad. -/
def humidityStep (humidity : ℚ) (st : ClassState) : ClassState :=
  if humidity > 85 then
    (if st.1 ≠ "bad" then "fair" else st.1, st.2 ++ [.veryHumid humidity])
  else st

/-- The visibility check (lines 71-74); visibility && visibility < 1 is falsy
when visibility is null or 0. -/
def visibilityStep (visibility : Option ℚ) (st : ClassState) : ClassState :=
  match visibility with
  | some v => if v ≠ 0 ∧ v < 1 then ("bad", st.2 ++ [.poorVisibility v]) else st
  | none => st

/-- The description keyword checks (lines 77-87). -/
def descStep (description : String) (st : ClassState) : ClassState :=
  let descLower := jsToLowerStr description
  if strIncludes descLower "thunderstorm" || strIncludes descLower "storm" then
    ("severe", st.2 ++ [.thunderstormConditions])
  else if strIncludes descLower "tornado" || strIncludes descLower "hurricane" then
    ("severe", st.2 ++ [.severeWeather])
  else if strIncludes descLower "fog" || strIncludes descLower "mist" ||
      strIncludes descLower "haze" then
    (if st.1 = "good" then "fair" else st.1, st.2 ++ [.reducedVisibility])
  else st

/-- The classification record returned by classifyWeather (lines 89-97). -/
structure Classification where
  classification : String
  isGood : Bool
  isBad : Bool
  reasons : List Reason
  summary : String

/-- classifyWeather (weatherConditionFetcher.js, lines 15-98): the checks run
in source order on the initial state ("good", []). -/
def classifyWeather (conditions : WeatherConditions) : Classification :=
  let r :=
    descStep conditions.description
      (visibilityStep conditions.visibility
        (humidityStep conditions.humidity
          (snowStep conditions.snow
            (rainStep conditions.rain
              (windStep conditions.windSpeed
                (feelsStep conditions.temp conditions.feelsLike
                  (tempStep conditions.temp ("good", []))))))))
  { classification := r.1
    isGood := r.1 == "good"
    isBad := r.1 == "bad" || r.1 == "severe"
    reasons := r.2
    summary :=
      if r.2.length > 0 then
        jsToUpperStr r.1 ++ " WEATHER: " ++ joinSep ", " (r.2.map reasonText)
      else "GOOD WEATHER: Pleasant conditions" }

/-! ## services/weatherConditionProcessor.js -/

/-- The good-weather resend interval in milliseconds:
(settings.weatherConditionGoodWeatherInterval || 60) * 60 * 1000. -/
def goodWeatherIntervalMs (settings : Settings) : Int :=
  (match settings.weatherConditionGoodWeatherInterval with
   | some i => if !(i == 0) then i else 60
   | none => 60) * 60 * 1000

/-- shouldSendConditionUpdate (weatherConditionProcessor.js, lines 153-191).
now is Date.now(); dateParse models new Date(s).getTime() on the stored
timestamp (the stored timestamps are ISO strings the code itself wrote, so
the NaN case of an unparseable stamp is not modelled). -/
def shouldSendConditionUpdate (dateParse : String → Int) (now : Int)
    (st : DbState) (locationId : String) (newCondition : StoredCondition)
    (settings : Settings) : Bool :=
  match getLastConditions st locationId with
  | none => true
  | some lastCondition =>
    let lastSentTime := dateParse lastCondition.timestamp
    let timeSinceLastSent := now - lastSentTime
    if !(lastCondition.classification == newCondition.classification) then true
    else if newCondition.isBadWeather then true
    else
      let minIntervalMs := goodWeatherIntervalMs settings
      if timeSinceLastSent < minIntervalMs then false
      else
        let tempDiff :=
          |newCondition.weather.temperature - lastCondition.weather.temperature|
        if tempDiff ≥ 5 then true
        else decide (timeSinceLastSent ≥ minIntervalMs)

/-- storeLastCondition (weatherConditionProcessor.js, lines 196-200). -/
def storeLastCondition (st : DbState) (locationId : String)
    (condition : StoredCondition) : DbState :=
  updateLastConditions st (fun l =>
    if l = locationId then some condition else getLastConditions st l)

/-! ## The forecast scheduler (timeToCron, updateForecastTime) -/

/-- JavaScript string.split(":") on the character list. -/
def jsSplitColon : List Char → List (List Char)
  | [] => [[]]
  | c :: rest =>
      if c = ':' then [] :: jsSplitColon rest
      else match jsSplitColon rest with
        | [] => [[c]]
        | g :: gs => (c :: g) :: gs

/-- timeToCron (the forecast scheduler service, referenced from
src/backend/routes/auth.js lines 169-178): timeString.split(":"), parseInt
over the parts, destructuring of the first two (an absent second part gives
NaN, modelled none), range validation, then the cron template
minutes hours * * *. -/
def timeToCron (timeString : String) : Except String String :=
  let parts := (jsSplitColon timeString.data).map (fun l => jsParseIntStr (String.mk l))
  let hours : Option Int := (parts.getD 0 none)
  let minutes : Option Int := (parts.getD 1 none)
  match hours, minutes with
  | some h, some m =>
      if h < 0 ∨ h > 23 ∨ m < 0 ∨ m > 59 then
        .error "Invalid time format. Use HH:MM (e.g., 07:00)"
      else .ok (intToStr m ++ " " ++ intToStr h ++ " * * *")
  | _, _ => .error "Invalid time format. Use HH:MM (e.g., 07:00)"

/-- The anchored regular expression ([01]?[0-9]|2[0-3]):[0-5][0-9] of
updateForecastTime, unrolled over the character list: it accepts exactly the
strings of shape H:MM or HH:MM whose hour is 0-9, 00-19 or 20-23 and whose
minute is 00-59.  Character classes are tested on code points (48 = 0,
49 = 1, 50 = 2, 51 = 3, 53 = 5, 58 = the colon). -/
def timeRegexTest (s : String) : Bool :=
  match s.data with
  | [a, b, c, d] =>
      isDigitC a && decide (b.toNat = 58) &&
      (48 ≤ c.toNat && c.toNat ≤ 53) && isDigitC d
  | [a, b, c, d, e] =>
      (((decide (a.toNat = 48) || decide (a.toNat = 49)) && isDigitC b) ||
        (decide (a.toNat = 50) && 48 ≤ b.toNat && b.toNat ≤ 51)) &&
      decide (c.toNat = 58) &&
      (48 ≤ d.toNat && d.toNat ≤ 53) && isDigitC e
  | _ => false

/-- updateForecastTime (the forecast scheduler service, referenced from
src/backend/routes/auth.js lines 346-366): the time is validated against the
regular expression before db.updateSettings writes it; on failure the
function throws and the settings are untouched.  The subsequent conditional
scheduler restart does not change the stored settings and is elided. -/
def updateForecastTime (st : DbState) (newTime : String) :
    Except String DbState :=
  if !(timeRegexTest newTime) then
    .error "Invalid time format. Use HH:MM (e.g., 07:00)"
  else
    .ok { st with settings := { st.settings with forecastTime := some newTime } }

/-! ## Auxiliary machinery for the proofs -/

/-- Bounded checker: p holds on every point of [lo, lo + n).  Fuel-structured
divide and conquer so the kernel can evaluate it without deep recursion. -/
def rangeAll (p : Nat → Bool) : Nat → Nat → Nat → Bool
  | 0, _, _ => false
  | f + 1, lo, n =>
    if n = 0 then true
    else if n = 1 then p lo
    else rangeAll p f lo (n / 2) && rangeAll p f (lo + n / 2) (n - n / 2)

/-- The per-year table fact checked for every year-of-era: the year formula
is exact at both ends of the year and the year spans at most 366 days. -/
def yearTableOK (y : Nat) : Bool :=
  decide (yoeOf (yearStart y) = y) && decide (yoeOf (yearEnd y) = y) &&
  decide (yearStart y ≤ yearEnd y) && decide (yearEnd y - yearStart y ≤ 365)

/-- The fixed severity vocabulary of the canonical alert per the data model. -/
def severityEnum : List String :=
  ["Extreme", "Severe", "Warning", "Watch", "Advisory", "Moderate", "Minor",
   "Statement", "Unknown"]

/-! ## Concrete fixtures used by witnesses and counterexamples -/

/-- A database state with no stored entries and default settings. -/
def emptyDb : DbState :=
  { lastAlerts := fun _ => none, lastConditions := fun _ => none, settings := {} }

/-- A canonical alert with a given alert id (every other field inert). -/
def mkIdAlert (i : String) : FormattedAlert :=
  { alert_id := i, event := "Test", severity := "Unknown", description := ""
    headline := "", area := "", starts_at := none, ends_at := none
    issued_at := none, location := "", location_id := "loc-1", source := ""
    raw_type := "", certainty := "", urgency := "" }

/-- A location with only an id. -/
def loc0 : Location := { id := "loc-1" }

/-- A date parser that parses nothing (no stored input below carries a
parseable date). -/
def parse0 : String → Option Int := fun _ => none

/-- A total getTime model returning the epoch for every stamp. -/
def dparse0 : String → Int := fun _ => 0

/-- Settings selecting the XWeather provider. -/
def xwSettings : Settings := { apiProvider := some "xweather" }

/-- An XWeather raw alert carrying only a provider-native id. -/
def rawIdOnly : RawAlert := { id := some "abc" }

/-- An XWeather raw alert whose details carry the significance code f. -/
def rawSigF : RawAlert :=
  { details := some { id := some "x1", significance := some (.vStr "f") } }

/-- A stored good-weather condition at 50 degrees. -/
def lastCond50 : StoredCondition :=
  { classification := "good", isBadWeather := false
    timestamp := "1970-01-01T00:00:00.000Z", weather := { temperature := 50 } }

/-- A fresh good-weather condition at 60 degrees. -/
def newCond60 : StoredCondition :=
  { classification := "good", isBadWeather := false
    timestamp := "1970-01-01T00:30:00.000Z", weather := { temperature := 60 } }

/-- A database state whose only stored condition is lastCond50 at loc-1. -/
def condDb : DbState :=
  { emptyDb with lastConditions := fun l =>
      if l = "loc-1" then some lastCond50 else none }

/-- Clear, windy conditions (30 mph) used for the wind witness. -/
def windyConds : WeatherConditions :=
  { temp := 70, feelsLike := 70, humidity := 40, windSpeed := 30
    description := "clear", rain := 0, snow := 0, visibility := some 10 }

/-- One hundred and one pairwise distinct alert ids. -/
def ids101 : List String := (List.range 101).map Nat.repr

/-! ## Lemmas about the dedup ledger -/

/-- Reading back the location just written yields the written ids. -/
theorem getLast_set_same (st : DbState) (now loc : String) (ids : List String) :
    getLastAlertIdsForLocation (setLastAlertForLocation st now loc ids) loc = ids := by
  simp [getLastAlertIdsForLocation, setLastAlertForLocation]

/-- The last-k suffix used by slice(-100). -/
def lastK (k : Nat) (l : List String) : List String := l.drop (l.length - k)

/-- markAlertsSent in closed form on the stored id list. -/
theorem getLast_markAlertsSent (st : DbState) (now loc : String)
    (alerts : List FormattedAlert) :
    getLastAlertIdsForLocation (markAlertsSent st now loc alerts) loc =
      if alerts.length = 0 then getLastAlertIdsForLocation st loc
      else lastK 100 (getLastAlertIdsForLocation st loc ++
        alerts.map (fun a => a.alert_id)) := by
  by_cases h : alerts.length = 0
  · simp [markAlertsSent, h]
  · simp [markAlertsSent, h, lastK, getLast_set_same]

/-- Two suffixes of the same list with the same length are equal. -/
theorem suffix_eq_of_length_eq {l a b : List String} (ha : a <:+ l)
    (hb : b <:+ l) (h : a.length = b.length) : a = b := by
  obtain ⟨ta, rfl⟩ := ha
  obtain ⟨tb, hbl⟩ := hb
  have hlen : ta.length = tb.length := by
    have := congrArg List.length hbl
    simp at this
    omega
  exact ((List.append_inj hbl hlen.symm).2).symm

/-- Trimming to the last k elements commutes with later appends. -/
theorem lastK_append_lastK (k : Nat) (l y : List String) :
    lastK k (lastK k l ++ y) = lastK k (l ++ y) := by
  have h1 : lastK k (lastK k l ++ y) <:+ l ++ y := by
    have hsub : lastK k l <:+ l := List.drop_suffix _ _
    obtain ⟨w, hw⟩ := hsub
    exact (List.drop_suffix _ _).trans ⟨w, by rw [← List.append_assoc, hw]⟩
  have h2 : lastK k (l ++ y) <:+ l ++ y := List.drop_suffix _ _
  refine suffix_eq_of_length_eq h1 h2 ?_
  simp [lastK]
  omega

/-- Folding singleton markAlertsSent calls over a list of ids appends them
all and keeps the last hundred, provided the ledger starts within bound. -/
theorem fold_markAlertsSent (loc now : String) :
    ∀ (ids : List String) (st : DbState),
      (getLastAlertIdsForLocation st loc).length ≤ 100 →
      getLastAlertIdsForLocation
        (ids.foldl (fun s i => markAlertsSent s now loc [mkIdAlert i]) st) loc =
      lastK 100 (getLastAlertIdsForLocation st loc ++ ids) := by
  intro ids
  induction ids with
  | nil => intro st h; simp [lastK, Nat.sub_eq_zero_of_le h]
  | cons i rest ih =>
    intro st h
    rw [List.foldl_cons]
    have hstep : getLastAlertIdsForLocation (markAlertsSent st now loc [mkIdAlert i]) loc =
        lastK 100 (getLastAlertIdsForLocation st loc ++ [i]) := by
      rw [getLast_markAlertsSent]; simp [mkIdAlert]
    have hlen : (lastK 100 (getLastAlertIdsForLocation st loc ++ [i])).length ≤ 100 := by
      simp [lastK]; omega
    rw [ih _ (by rw [hstep]; exact hlen), hstep, lastK_append_lastK]
    simp

/-! ## Claim theorems: the dedup ledger -/

/-- Claim C1: for every location and alert batch, filterNewAlerts returns
exactly the order-preserving sublist of the batch whose alert ids are not in
the stored ledger list for the location; it performs no mutation (in this
embedding the function returns no state: its only database call is the read
getLastAlertIdsForLocation). -/
theorem C1_filterNewAlerts_exact (st : DbState) (loc : String)
    (alerts : List FormattedAlert) :
    filterNewAlerts st loc alerts =
      alerts.filter
        (fun a => decide (a.alert_id ∉ getLastAlertIdsForLocation st loc)) ∧
    (filterNewAlerts st loc alerts).Sublist alerts ∧
    (∀ a, a ∈ filterNewAlerts st loc alerts ↔
      a ∈ alerts ∧ a.alert_id ∉ getLastAlertIdsForLocation st loc) := by
  have hfe : filterNewAlerts st loc alerts =
      alerts.filter
        (fun a => decide (a.alert_id ∉ getLastAlertIdsForLocation st loc)) := by
    by_cases h : alerts.length = 0
    · rw [List.length_eq_zero] at h
      simp [filterNewAlerts, h]
    · simp only [filterNewAlerts, h, if_false]
      congr 1
      funext a
      simp [List.contains]
  refine ⟨hfe, ?_, ?_⟩
  · rw [hfe]; exact List.filter_sublist _
  · intro a
    rw [hfe]
    simp

/-- Claim C2 counterexample: marking the same singleton batch sent twice does
not leave the ledger as after one call — the id a1 is appended again. -/
theorem C2_markAlertsSent_cex :
    getLastAlertIdsForLocation
      (markAlertsSent (markAlertsSent emptyDb "t1" "L" [mkIdAlert "a1"])
        "t2" "L" [mkIdAlert "a1"]) "L" ≠
    getLastAlertIdsForLocation
      (markAlertsSent emptyDb "t1" "L" [mkIdAlert "a1"]) "L" := by
  decide

/-- Claim C2 (amended): markAlertsSent appends already-present ids again, so
it is not idempotent on the stored list (the second call leaves a duplicated
copy of each id of the batch); it is idempotent up to membership: as long as
no trimming occurs (stored length plus twice the batch length at most 100),
an id is stored after two calls with the same batch exactly when it is stored
after one. -/
theorem C2_markAlertsSent_member_idempotent (st : DbState)
    (now1 now2 loc : String) (alerts : List FormattedAlert)
    (hlen : (getLastAlertIdsForLocation st loc).length + 2 * alerts.length ≤ 100) :
    ∀ x, x ∈ getLastAlertIdsForLocation
        (markAlertsSent (markAlertsSent st now1 loc alerts) now2 loc alerts) loc ↔
      x ∈ getLastAlertIdsForLocation (markAlertsSent st now1 loc alerts) loc := by
  intro x
  by_cases h : alerts.length = 0
  · rw [getLast_markAlertsSent, getLast_markAlertsSent]
    simp [h, getLast_markAlertsSent]
  · have h1 : getLastAlertIdsForLocation (markAlertsSent st now1 loc alerts) loc =
        getLastAlertIdsForLocation st loc ++ alerts.map (fun a => a.alert_id) := by
      rw [getLast_markAlertsSent]
      simp only [h, if_false, lastK]
      have : (getLastAlertIdsForLocation st loc ++
          alerts.map (fun a => a.alert_id)).length ≤ 100 := by simp; omega
      rw [Nat.sub_eq_zero_of_le this, List.drop_zero]
    rw [getLast_markAlertsSent, h1]
    simp only [h, if_false, lastK]
    have : (getLastAlertIdsForLocation st loc ++ alerts.map (fun a => a.alert_id) ++
        alerts.map (fun a => a.alert_id)).length ≤ 100 := by simp; omega
    rw [Nat.sub_eq_zero_of_le this, List.drop_zero]
    simp [or_assoc]

/-- Claim C2 witness: the membership idempotence instantiated at the empty
database, location L and the singleton batch a1. -/
theorem C2_markAlertsSent_member_idempotent_witness :
    "a1" ∈ getLastAlertIdsForLocation
        (markAlertsSent (markAlertsSent emptyDb "t1" "L" [mkIdAlert "a1"])
          "t2" "L" [mkIdAlert "a1"]) "L" ↔
      "a1" ∈ getLastAlertIdsForLocation
        (markAlertsSent emptyDb "t1" "L" [mkIdAlert "a1"]) "L" :=
  C2_markAlertsSent_member_idempotent emptyDb "t1" "t2" "L" [mkIdAlert "a1"]
    (by decide) "a1"

/-- Claim C3: the ledger is bounded at one hundred ids per location — a call
with a nonempty batch always leaves at most one hundred stored ids, a call
from a bounded state stays bounded (the empty-batch early return leaves the
state untouched), and marking one hundred and one sequential distinct ids
sent for one location starting from an empty ledger retains exactly the most
recent hundred in order, evicting the oldest from the front. -/
theorem C3_ledger_bounded :
    (∀ (st : DbState) (now loc : String) (alerts : List FormattedAlert),
      alerts.length ≠ 0 →
      (getLastAlertIdsForLocation (markAlertsSent st now loc alerts) loc).length ≤ 100) ∧
    (∀ (st : DbState) (now loc : String) (alerts : List FormattedAlert),
      (getLastAlertIdsForLocation st loc).length ≤ 100 →
      (getLastAlertIdsForLocation (markAlertsSent st now loc alerts) loc).length ≤ 100) ∧
    (∀ (ids : List String) (st : DbState) (now loc : String),
      ids.length = 101 → ids.Nodup →
      getLastAlertIdsForLocation st loc = [] →
      getLastAlertIdsForLocation
        (ids.foldl (fun s i => markAlertsSent s now loc [mkIdAlert i]) st) loc =
        ids.drop 1) := by
  have hbound : ∀ (st : DbState) (now loc : String) (alerts : List FormattedAlert),
      alerts.length ≠ 0 →
      (getLastAlertIdsForLocation (markAlertsSent st now loc alerts) loc).length ≤ 100 := by
    intro st now loc alerts h
    rw [getLast_markAlertsSent]
    simp only [h, if_false, lastK, List.length_drop]
    omega
  refine ⟨hbound, ?_, ?_⟩
  · intro st now loc alerts h
    by_cases he : alerts.length = 0
    · rw [getLast_markAlertsSent]; simpa [he]
    · exact hbound st now loc alerts he
  · intro ids st now loc hlen _ hempty
    rw [fold_markAlertsSent loc now ids st (by simp [hempty])]
    rw [hempty]
    simp [lastK, hlen]

/-- Claim C3 witness: the three parts instantiated — a concrete nonempty
batch, a concrete bounded state, and the hundred-and-one-id scenario on the
ids 0..100, which leaves exactly the ids 1..100. -/
theorem C3_ledger_bounded_witness :
    (getLastAlertIdsForLocation
      (markAlertsSent emptyDb "t" "L" [mkIdAlert "a1"]) "L").length ≤ 100 ∧
    (getLastAlertIdsForLocation
      (markAlertsSent emptyDb "t" "L" []) "L").length ≤ 100 ∧
    getLastAlertIdsForLocation
      (ids101.foldl (fun s i => markAlertsSent s "t" "L" [mkIdAlert i]) emptyDb) "L" =
      ids101.drop 1 :=
  ⟨C3_ledger_bounded.1 emptyDb "t" "L" [mkIdAlert "a1"] (by decide),
   C3_ledger_bounded.2.1 emptyDb "t" "L" [] (by decide),
   C3_ledger_bounded.2.2 ids101 emptyDb "t" "L" (by decide) (by decide) (by decide)⟩

/-! ## Lemmas about the weather classifier -/

/-- Wind above 25 forces the severity to bad at the wind check. -/
theorem windStep_strong (w : ℚ) (st : ClassState) (h : 25 < w) :
    (windStep w st).1 = "bad" := by
  unfold windStep
  rw [if_pos h]

/-- The rain check never lowers a bad severity. -/
theorem rainStep_keeps_bad (r : ℚ) (st : ClassState) (h : st.1 = "bad") :
    (rainStep r st).1 = "bad" := by
  obtain ⟨s1, rs⟩ := st
  have h1 : s1 = "bad" := h
  subst h1
  simp [rainStep, apply_ite (Prod.fst : ClassState → String)]

/-- The snow check never lowers a bad severity. -/
theorem snowStep_keeps_bad (sn : ℚ) (st : ClassState) (h : st.1 = "bad") :
    (snowStep sn st).1 = "bad" := by
  obtain ⟨s1, rs⟩ := st
  have h1 : s1 = "bad" := h
  subst h1
  simp [snowStep, apply_ite (Prod.fst : ClassState → String)]

/-- The humidity check never lowers a bad severity. -/
theorem humidityStep_keeps_bad (hu : ℚ) (st : ClassState) (h : st.1 = "bad") :
    (humidityStep hu st).1 = "bad" := by
  obtain ⟨s1, rs⟩ := st
  have h1 : s1 = "bad" := h
  subst h1
  simp [humidityStep, apply_ite (Prod.fst : ClassState → String)]

/-- The visibility check never lowers a bad severity. -/
theorem visibilityStep_keeps_bad (v : Option ℚ) (st : ClassState)
    (h : st.1 = "bad") : (visibilityStep v st).1 = "bad" := by
  obtain ⟨s1, rs⟩ := st
  have h1 : s1 = "bad" := h
  subst h1
  cases v with
  | none => rfl
  | some vv => simp [visibilityStep, apply_ite (Prod.fst : ClassState → String)]

/-- The description check turns a bad severity into bad or severe. -/
theorem descStep_keeps_bad (d : String) (st : ClassState) (h : st.1 = "bad") :
    (descStep d st).1 = "bad" ∨ (descStep d st).1 = "severe" := by
  obtain ⟨s1, rs⟩ := st
  have h1 : s1 = "bad" := h
  subst h1
  simp only [descStep, apply_ite (Prod.fst : ClassState → String)]
  split
  · right; rfl
  · split
    · right; rfl
    · split
      · left; simp
      · left; rfl

/-- The state invariant threaded through the classifier: the severity is one
of the four levels and the reason list is empty exactly on good. -/
def InvCS (st : ClassState) : Prop :=
  (st.1 = "good" ∨ st.1 = "fair" ∨ st.1 = "bad" ∨ st.1 = "severe") ∧
  (st.2 = [] ↔ st.1 = "good")

/-- The temperature check preserves the invariant. -/
theorem tempStep_inv (t : ℚ) (st : ClassState) (h : InvCS st) :
    InvCS (tempStep t st) := by
  obtain ⟨s1, rs⟩ := st
  obtain ⟨hs, hr⟩ := h
  unfold InvCS tempStep
  split
  · simp
  · split
    · simp
    · split
      · constructor
        · split <;> simp_all
        · simp only at hs hr ⊢
          split <;> simp_all
      · exact ⟨hs, hr⟩

/-- The feels-like check preserves the invariant. -/
theorem feelsStep_inv (t f : ℚ) (st : ClassState) (h : InvCS st) :
    InvCS (feelsStep t f st) := by
  obtain ⟨s1, rs⟩ := st
  obtain ⟨hs, hr⟩ := h
  unfold InvCS feelsStep
  split
  · split
    · simp
    · exact ⟨hs, hr⟩
  · exact ⟨hs, hr⟩

/-- The wind check preserves the invariant. -/
theorem windStep_inv (w : ℚ) (st : ClassState) (h : InvCS st) :
    InvCS (windStep w st) := by
  obtain ⟨s1, rs⟩ := st
  obtain ⟨hs, hr⟩ := h
  unfold InvCS windStep
  split
  · simp
  · split
    · constructor
      · split <;> simp_all
      · simp only at hs hr ⊢
        split <;> simp_all
    · exact ⟨hs, hr⟩

/-- The rain check preserves the invariant. -/
theorem rainStep_inv (r : ℚ) (st : ClassState) (h : InvCS st) :
    InvCS (rainStep r st) := by
  obtain ⟨s1, rs⟩ := st
  obtain ⟨hs, hr⟩ := h
  unfold InvCS rainStep
  split
  · simp
  · split
    · constructor
      · split <;> simp_all
      · simp only at hs hr ⊢
        split <;> simp_all
    · exact ⟨hs, hr⟩

/-- The snow check preserves the invariant. -/
theorem snowStep_inv (sn : ℚ) (st : ClassState) (h : InvCS st) :
    InvCS (snowStep sn st) := by
  obtain ⟨s1, rs⟩ := st
  obtain ⟨hs, hr⟩ := h
  unfold InvCS snowStep
  split
  · simp
  · exact ⟨hs, hr⟩

/-- The humidity check preserves the invariant. -/
theorem humidityStep_inv (hu : ℚ) (st : ClassState) (h : InvCS st) :
    InvCS (humidityStep hu st) := by
  obtain ⟨s1, rs⟩ := st
  obtain ⟨hs, hr⟩ := h
  unfold InvCS humidityStep
  split
  · constructor
    · simp only at hs ⊢
      split <;> simp_all
    · simp only at hs hr ⊢
      split <;> simp_all
  · exact ⟨hs, hr⟩

/-- The visibility check preserves the invariant. -/
theorem visibilityStep_inv (v : Option ℚ) (st : ClassState) (h : InvCS st) :
    InvCS (visibilityStep v st) := by
  obtain ⟨s1, rs⟩ := st
  obtain ⟨hs, hr⟩ := h
  unfold InvCS visibilityStep
  cases v with
  | none => exact ⟨hs, hr⟩
  | some vv =>
    simp only
    split
    · simp
    · exact ⟨hs, hr⟩

/-- The description check preserves the invariant. -/
theorem descStep_inv (d : String) (st : ClassState) (h : InvCS st) :
    InvCS (descStep d st) := by
  obtain ⟨s1, rs⟩ := st
  obtain ⟨hs, hr⟩ := h
  simp only at hs hr
  unfold InvCS descStep
  by_cases c1 : strIncludes (jsToLowerStr d) "thunderstorm" = true ∨
      strIncludes (jsToLowerStr d) "storm" = true <;>
    by_cases c2 : strIncludes (jsToLowerStr d) "tornado" = true ∨
      strIncludes (jsToLowerStr d) "hurricane" = true <;>
    by_cases c4 : s1 = "good" <;>
    by_cases c3 : (strIncludes (jsToLowerStr d) "fog" = true ∨
      strIncludes (jsToLowerStr d) "mist" = true) ∨
      strIncludes (jsToLowerStr d) "haze" = true <;>
    simp_all

/-- The final classifier state satisfies the invariant. -/
theorem classifyState_inv (c : WeatherConditions) :
    InvCS (descStep c.description
      (visibilityStep c.visibility
        (humidityStep c.humidity
          (snowStep c.snow
            (rainStep c.rain
              (windStep c.windSpeed
                (feelsStep c.temp c.feelsLike
                  (tempStep c.temp ("good", []))))))))) :=
  descStep_inv _ _ (visibilityStep_inv _ _ (humidityStep_inv _ _
    (snowStep_inv _ _ (rainStep_inv _ _ (windStep_inv _ _
      (feelsStep_inv _ _ _ (tempStep_inv _ _ ⟨Or.inl rfl, by simp⟩)))))))

/-! ## Claim theorems: the weather classifier -/

/-- Claim C7: for every conditions reading with wind speed above 25,
classifyWeather reports bad weather (isBad is true), whatever the other
readings and the description are. -/
theorem C7_classifyWeather_wind_bad (c : WeatherConditions)
    (h : 25 < c.windSpeed) : (classifyWeather c).isBad = true := by
  have hw : (windStep c.windSpeed
      (feelsStep c.temp c.feelsLike (tempStep c.temp ("good", [])))).1 = "bad" :=
    windStep_strong _ _ h
  have hfinal := descStep_keeps_bad c.description _
    (visibilityStep_keeps_bad c.visibility _
      (humidityStep_keeps_bad c.humidity _
        (snowStep_keeps_bad c.snow _
          (rainStep_keeps_bad c.rain _ hw))))
  unfold classifyWeather
  rcases hfinal with hb | hs
  · simp [hb]
  · simp [hs]

/-- Claim C7 witness: the wind theorem applied to clear conditions with a
30 mph wind. -/
theorem C7_classifyWeather_wind_bad_witness :
    25 < windyConds.windSpeed ∧ (classifyWeather windyConds).isBad = true :=
  ⟨by norm_num [windyConds], C7_classifyWeather_wind_bad windyConds
    (by norm_num [windyConds])⟩

/-- Claim C10: for every conditions reading the classification is one of
good, fair, bad, severe; isGood holds exactly on good; isBad holds exactly on
bad or severe (so a fair result has both false); and the reasons list is
empty exactly on good. -/
theorem C10_classifyWeather_coherent (c : WeatherConditions) :
    (classifyWeather c).classification ∈
      (["good", "fair", "bad", "severe"] : List String) ∧
    ((classifyWeather c).isGood = true ↔
      (classifyWeather c).classification = "good") ∧
    ((classifyWeather c).isBad = true ↔
      ((classifyWeather c).classification = "bad" ∨
        (classifyWeather c).classification = "severe")) ∧
    ((classifyWeather c).reasons = [] ↔
      (classifyWeather c).classification = "good") := by
  have hinv := classifyState_inv c
  unfold InvCS at hinv
  unfold classifyWeather
  refine ⟨?_, ?_, ?_, ?_⟩
  · simp only [List.mem_cons, List.mem_singleton]
    tauto
  · simp
  · simp
  · exact hinv.2

/-! ## Claim theorems: the conditions delivery gate -/

/-- Claim C6 counterexample: with a stored good-weather condition of equal
classification, not bad weather, and a ten-degree temperature move, the gate
still refuses to send when no wall-clock time has elapsed since the last
send — the temperature check sits behind the interval early-return. -/
theorem C6_shouldSend_cex :
    shouldSendConditionUpdate dparse0 0 condDb "loc-1" newCond60 {} = false ∧
    lastCond50.classification = newCond60.classification ∧
    newCond60.isBadWeather = false ∧
    5 ≤ |newCond60.weather.temperature - lastCond50.weather.temperature| := by
  refine ⟨by decide, rfl, rfl, ?_⟩
  norm_num [newCond60, lastCond50]

/-- Claim C6 (amended): a temperature move of at least five degrees is a
sufficient condition to deliver only once at least the configured good
weather interval has elapsed since the last send: for every stored condition
of equal classification that is not bad weather, shouldSendConditionUpdate
returns true whenever the interval has elapsed and the temperature moved at
least five degrees; when less than the interval has elapsed it returns false
regardless of the temperature move. -/
theorem C6_shouldSend_temp_after_interval (dateParse : String → Int)
    (now : Int) (st : DbState) (loc : String) (newCondition : StoredCondition)
    (settings : Settings) (lastCondition : StoredCondition)
    (hstore : getLastConditions st loc = some lastCondition)
    (hclass : lastCondition.classification = newCondition.classification)
    (hbad : newCondition.isBadWeather = false)
    (htemp : 5 ≤ |newCondition.weather.temperature -
      lastCondition.weather.temperature|)
    (hint : goodWeatherIntervalMs settings ≤ now - dateParse lastCondition.timestamp) :
    shouldSendConditionUpdate dateParse now st loc newCondition settings = true := by
  unfold shouldSendConditionUpdate
  rw [hstore]
  simp only [hclass, hbad]
  have h1 : ¬(now - dateParse lastCondition.timestamp <
      goodWeatherIntervalMs settings) := by omega
  rw [if_neg (show ¬(false = true) by simp), if_neg h1, if_pos htemp]
  simp

/-- Claim C6 witness: the amended gate applied two hours after the stored
send with a ten-degree move under default settings. -/
theorem C6_shouldSend_temp_after_interval_witness :
    shouldSendConditionUpdate dparse0 7200000 condDb "loc-1" newCond60 {} = true :=
  C6_shouldSend_temp_after_interval dparse0 7200000 condDb "loc-1" newCond60 {}
    lastCond50 rfl rfl rfl (by norm_num [newCond60, lastCond50]) (by decide)

/-! ## Lemmas about the forecast time validation -/

/-- The time regular expression rejects every string longer than five
characters. -/
theorem timeRegexTest_long (l : List Char) (h : 5 < l.length) :
    timeRegexTest (String.mk l) = false := by
  rcases l with _ | ⟨a1, _ | ⟨a2, _ | ⟨a3, _ | ⟨a4, _ | ⟨a5, _ | ⟨a6, t⟩⟩⟩⟩⟩⟩ <;>
    simp at h
  rfl

/-- Every output of the severity mapper is in the twelve-string vocabulary or
is the raw stringified input passed through, the latter only when parseInt
fails on it. -/
theorem mapSeverity_shape (v : JsVal) (hv : jsValTruthy v = true) :
    mapSeverity (some v) ∈ severityEnum ++ ["Forecast", "Outlook", "Synopsis"] ∨
    (mapSeverity (some v) = jsValToStr v ∧ jsParseIntVal v = none) := by
  have hneg : (!(valTruthy (some v))) = true → False := by simp [valTruthy, hv]
  unfold mapSeverity
  rw [if_neg hneg]
  simp only [Option.getD_some]
  by_cases c1 : (jsToLowerStr (jsValToStr v) == "w") = true
  · rw [if_pos c1]; left; decide
  rw [if_neg c1]
  by_cases c2 : (jsToLowerStr (jsValToStr v) == "a") = true
  · rw [if_pos c2]; left; decide
  rw [if_neg c2]
  by_cases c3 : (jsToLowerStr (jsValToStr v) == "y") = true
  · rw [if_pos c3]; left; decide
  rw [if_neg c3]
  by_cases c4 : (jsToLowerStr (jsValToStr v) == "s") = true
  · rw [if_pos c4]; left; decide
  rw [if_neg c4]
  by_cases c5 : (jsToLowerStr (jsValToStr v) == "f") = true
  · rw [if_pos c5]; left; decide
  rw [if_neg c5]
  by_cases c6 : (jsToLowerStr (jsValToStr v) == "o") = true
  · rw [if_pos c6]; left; decide
  rw [if_neg c6]
  by_cases c7 : (jsToLowerStr (jsValToStr v) == "n") = true
  · rw [if_pos c7]; left; decide
  rw [if_neg c7]
  rcases hp : jsParseIntVal v with _ | p
  · simp only [hp]
    by_cases d1 : (jsToLowerStr (jsValToStr v) == "extreme") = true
    · rw [if_pos d1]; left; decide
    rw [if_neg d1]
    by_cases d2 : (jsToLowerStr (jsValToStr v) == "severe") = true
    · rw [if_pos d2]; left; decide
    rw [if_neg d2]
    by_cases d3 : (jsToLowerStr (jsValToStr v) == "moderate") = true
    · rw [if_pos d3]; left; decide
    rw [if_neg d3]
    by_cases d4 : (jsToLowerStr (jsValToStr v) == "minor") = true
    · rw [if_pos d4]; left; decide
    rw [if_neg d4]
    by_cases d5 : (jsToLowerStr (jsValToStr v) == "warning") = true
    · rw [if_pos d5]; left; decide
    rw [if_neg d5]
    by_cases d6 : (jsToLowerStr (jsValToStr v) == "watch") = true
    · rw [if_pos d6]; left; decide
    rw [if_neg d6]
    by_cases d7 : (jsToLowerStr (jsValToStr v) == "advisory") = true
    · rw [if_pos d7]; left; decide
    rw [if_neg d7]
    right
    exact ⟨rfl, trivial⟩
  · simp only [hp]
    by_cases e1 : p ≤ 2
    · rw [if_pos e1]; left; decide
    rw [if_neg e1]
    by_cases e2 : p ≤ 4
    · rw [if_pos e2]; left; decide
    rw [if_neg e2]
    by_cases e3 : p ≤ 6
    · rw [if_pos e3]; left; decide
    rw [if_neg e3]
    by_cases e4 : p ≤ 8
    · rw [if_pos e4]; left; decide
    rw [if_neg e4]
    left; decide

/-! ## Claim theorems: forecast time handling -/

/-- Claim C9: the time string 07:00 converts to the daily cron trigger
0 7 * * * firing once per day at 07:00; and updateForecastTime rejects with
the validation error (leaving the stored settings untouched, since the throw
precedes the write) every candidate H:M string built from a nonempty digit
hour part and a nonempty digit minute part whose hour exceeds 23 or whose
minute exceeds 59, such as 25:00. -/
theorem C9_forecast_time :
    timeToCron "07:00" = .ok "0 7 * * *" ∧
    (∀ (st : DbState) (hs ms : List Char),
      hs ≠ [] → ms ≠ [] →
      (∀ c ∈ hs, isDigitC c = true) → (∀ c ∈ ms, isDigitC c = true) →
      (23 < digitsVal hs ∨ 59 < digitsVal ms) →
      updateForecastTime st (String.mk (hs ++ ':' :: ms)) =
        .error "Invalid time format. Use HH:MM (e.g., 07:00)") := by
  constructor
  · rfl
  · intro st hs ms hne1 hne2 hdh hdm hbound
    suffices hreg : timeRegexTest (String.mk (hs ++ ':' :: ms)) = false by
      simp [updateForecastTime, hreg]
    by_cases hlen : 5 < (hs ++ ':' :: ms).length
    · exact timeRegexTest_long _ hlen
    · rcases hs with _ | ⟨a, hs1⟩
      · exact absurd rfl hne1
      rcases ms with _ | ⟨c, ms1⟩
      · exact absurd rfl hne2
      have ha := hdh a (by simp)
      have hc := hdm c (by simp)
      simp only [isDigitC, Bool.and_eq_true, decide_eq_true_eq] at ha hc
      rcases hs1 with _ | ⟨b, hs2⟩
      · rcases ms1 with _ | ⟨d, ms2⟩
        · rfl
        · have hd := hdm d (by simp)
          simp only [isDigitC, Bool.and_eq_true, decide_eq_true_eq] at hd
          rcases ms2 with _ | ⟨f, ms3⟩
          · simp only [digitsVal, List.foldl] at hbound
            simp only [List.cons_append, List.nil_append, timeRegexTest]
            rw [Bool.eq_false_iff]
            intro htrue
            simp only [isDigitC, Bool.and_eq_true, decide_eq_true_eq] at htrue
            omega
          · rcases ms3 with _ | ⟨g, ms4⟩
            · simp only [List.cons_append, List.nil_append, timeRegexTest]
              rw [Bool.eq_false_iff]
              intro htrue
              simp only [isDigitC, Bool.and_eq_true, Bool.or_eq_true,
                decide_eq_true_eq] at htrue
              omega
            · simp at hlen
      · have hb := hdh b (by simp)
        simp only [isDigitC, Bool.and_eq_true, decide_eq_true_eq] at hb
        rcases hs2 with _ | ⟨e, hs3⟩
        · rcases ms1 with _ | ⟨d, ms2⟩
          · simp only [List.cons_append, List.nil_append, timeRegexTest]
            rw [Bool.eq_false_iff]
            intro htrue
            simp only [isDigitC, Bool.and_eq_true, decide_eq_true_eq] at htrue
            omega
          · rcases ms2 with _ | ⟨f, ms3⟩
            · have hd := hdm d (by simp)
              simp only [isDigitC, Bool.and_eq_true, decide_eq_true_eq] at hd
              simp only [digitsVal, List.foldl] at hbound
              simp only [List.cons_append, List.nil_append, timeRegexTest]
              rw [Bool.eq_false_iff]
              intro htrue
              simp only [isDigitC, Bool.and_eq_true, Bool.or_eq_true,
                decide_eq_true_eq] at htrue
              omega
            · simp at hlen
        · have he := hdh e (by simp)
          simp only [isDigitC, Bool.and_eq_true, decide_eq_true_eq] at he
          rcases hs3 with _ | ⟨g, hs4⟩
          · rcases ms1 with _ | ⟨d, ms2⟩
            · simp only [List.cons_append, List.nil_append, timeRegexTest]
              rw [Bool.eq_false_iff]
              intro htrue
              simp only [isDigitC, Bool.and_eq_true, Bool.or_eq_true,
                decide_eq_true_eq] at htrue
              omega
            · simp at hlen
          · simp at hlen; omega

/-- Claim C9 witness: the conversion of 07:00 and the rejection of 25:00
with its stated digit decomposition. -/
theorem C9_forecast_time_witness :
    timeToCron "07:00" = .ok "0 7 * * *" ∧
    updateForecastTime emptyDb (String.mk (['2', '5'] ++ ':' :: ['0', '0'])) =
      .error "Invalid time format. Use HH:MM (e.g., 07:00)" :=
  ⟨C9_forecast_time.1,
   C9_forecast_time.2 emptyDb ['2', '5'] ['0', '0'] (by decide) (by decide)
     (by decide) (by decide) (Or.inl (by decide))⟩

/-! ## Claim theorems: severity vocabulary -/

/-- Claim C5 counterexample: the normalizer emits the severity Forecast (for
the XWeather significance code f), which is outside the fixed severity
enumeration. -/
theorem C5_severity_cex :
    (formatXWeatherAlert 0 parse0 xwSettings rawSigF loc0).severity =
      "Forecast" ∧ "Forecast" ∉ severityEnum :=
  ⟨by decide, by decide⟩

/-- Claim C5 (amended): the severity of a canonical alert is not confined to
the fixed nine-value enumeration — mapSeverity also emits Forecast, Outlook
and Synopsis for the XWeather codes f, o, n, and passes any unmatched
free-text value through unchanged (exactly when parseInt fails on it); on the
NWS path a provider-supplied severity string is likewise passed through
unchanged. -/
theorem C5_severity_amended :
    (∀ value : Option JsVal,
      mapSeverity value ∈ severityEnum ++ ["Forecast", "Outlook", "Synopsis"] ∨
      ∃ s, value = some (.vStr s) ∧ mapSeverity value = s) ∧
    (∀ (now : Int) (r : RawAlert) (loc : Location),
      strTruthy r.severity = true →
      (formatNWSAlert now r loc).severity = r.severity.getD "") := by
  constructor
  · intro value
    rcases value with _ | v
    · left; decide
    · by_cases hv : jsValTruthy v = true
      · rcases mapSeverity_shape v hv with h | ⟨heq, hnone⟩
        · left; exact h
        · rcases v with s | n
          · right; exact ⟨s, rfl, heq⟩
          · simp [jsParseIntVal] at hnone
      · left
        have h1 : (!(valTruthy (some v))) = true := by
          simp only [valTruthy]
          simpa using hv
        unfold mapSeverity
        rw [if_pos h1]
        decide
  · intro now r loc h
    simp [formatNWSAlert, h]

/-- Claim C5 witness: the free-text value blizzard passes through the mapper,
and a raw NWS severity string passes through the NWS formatter. -/
theorem C5_severity_amended_witness :
    (mapSeverity (some (.vStr "blizzard")) ∈
        severityEnum ++ ["Forecast", "Outlook", "Synopsis"] ∨
      ∃ s, some (JsVal.vStr "blizzard") = some (.vStr s) ∧
        mapSeverity (some (.vStr "blizzard")) = s) ∧
    (formatNWSAlert 0 { severity := some "Chaotic" } loc0).severity =
      (some "Chaotic").getD "" :=
  ⟨C5_severity_amended.1 (some (.vStr "blizzard")),
   C5_severity_amended.2 0 { severity := some "Chaotic" } loc0 (by decide)⟩

/-! ## Claim theorems: round-trip of the dedup key -/

/-- Claim C4 counterexample: normalizing an XWeather alert that carries the
provider-native id abc and re-applying the normalizer to the canonical output
changes alert_id — the canonical record keeps its identifier under alert_id,
a field the formatter never reads, so the second pass generates a fresh
fallback id. -/
theorem C4_roundtrip_cex :
    (formatAlerts 0 parse0 xwSettings
        (some ((formatAlerts 0 parse0 xwSettings (some [rawIdOnly]) loc0).map
          alertToRaw)) loc0).map (fun a => a.alert_id) ≠
      (formatAlerts 0 parse0 xwSettings (some [rawIdOnly]) loc0).map
        (fun a => a.alert_id) := by
  decide

/-- Claim C4 (amended): round-trip stability of alert_id fails in general:
for every XWeather raw alert with a truthy native details id, the first
normalization keeps that id, but re-applying the normalizer to the canonical
output — under any provider settings, any clock value and any location —
replaces alert_id by the generated fallback built from the parts unknown,
Date.now() and the empty zone (base64 of unknown-(now)-, truncated to 24
characters), independent of the original id; the round trip preserves
alert_id only when the native id coincides with that generated string. -/
theorem C4_roundtrip_amended (now now2 : Int) (dp dp2 : String → Option Int)
    (settings settings2 : Settings) (r : RawAlert) (loc loc2 : Location)
    (h : strTruthy (detailsOf r).id = true) :
    (formatXWeatherAlert now dp settings r loc).alert_id =
      (detailsOf r).id.getD "" ∧
    (formatXWeatherAlert now2 dp2 settings2
        (alertToRaw (formatXWeatherAlert now dp settings r loc)) loc2).alert_id =
      jsSlice (jsBufferBase64 (joinSep "-" ["unknown", intToStr now2, ""])) 24 := by
  constructor
  · simp [formatXWeatherAlert, orStrVal, h]
  · rfl

/-- Claim C4 witness: the amended round-trip facts at the concrete alert with
native id abc, the epoch clock and the XWeather settings. -/
theorem C4_roundtrip_amended_witness :
    (formatXWeatherAlert 0 parse0 xwSettings rawIdOnly loc0).alert_id =
      (detailsOf rawIdOnly).id.getD "" ∧
    (formatXWeatherAlert 0 parse0 xwSettings
        (alertToRaw (formatXWeatherAlert 0 parse0 xwSettings rawIdOnly loc0))
        loc0).alert_id =
      jsSlice (jsBufferBase64 (joinSep "-" ["unknown", intToStr 0, ""])) 24 :=
  C4_roundtrip_amended 0 0 parse0 parse0 xwSettings xwSettings rawIdOnly loc0
    loc0 (by decide)

/-! ## Lemmas about the calendar conversion -/

/-- Soundness of the bounded checker: a successful rangeAll run establishes
the predicate at every point of the interval. -/
theorem rangeAll_sound (p : Nat → Bool) :
    ∀ (f lo n : Nat), rangeAll p f lo n = true →
      ∀ a, lo ≤ a → a < lo + n → p a = true := by
  intro f
  induction f with
  | zero => intro lo n h; simp [rangeAll] at h
  | succ f ih =>
    intro lo n h a h1 h2
    simp only [rangeAll] at h
    by_cases h0 : n = 0
    · omega
    · by_cases hone : n = 1
      · simp only [h0, hone, if_false, if_true, reduceIte] at h
        have ha : a = lo := by omega
        rw [ha]
        simpa using h
      · simp only [h0, hone, if_false, Bool.and_eq_true, reduceIte] at h
        by_cases hc : a < lo + n / 2
        · exact ih lo (n / 2) h.1 a h1 hc
        · exact ih (lo + n / 2) (n - n / 2) h.2 a (by omega) (by omega)

/-- The year table holds on all four hundred years of an era. -/
theorem yearTable_check : rangeAll yearTableOK 10 0 400 = true := by decide

/-- The year formula is monotone over one step of the day-of-era. -/
theorem yoeOf_step (a : Nat) : yoeOf a ≤ yoeOf (a + 1) := by
  unfold yoeOf
  exact Nat.div_le_div_right (by omega)

/-- The year formula is monotone in the day-of-era. -/
theorem yoeOf_mono {a b : Nat} (h : a ≤ b) : yoeOf a ≤ yoeOf b := by
  induction b with
  | zero => have : a = 0 := by omega
            rw [this]
  | succ b ih =>
    by_cases hab : a = b + 1
    · rw [hab]
    · exact (ih (by omega)).trans (yoeOf_step b)

/-- The civil-from-days bounds: within an era the year formula lands in
0..399, at or after the start of its year, and within 365 days of it. -/
theorem civ_bounds (doe : Nat) (h : doe ≤ 146096) :
    yoeOf doe ≤ 399 ∧ yearStart (yoeOf doe) ≤ doe ∧
    doe - yearStart (yoeOf doe) ≤ 365 := by
  have tbl : ∀ y, y ≤ 399 →
      yoeOf (yearStart y) = y ∧ yoeOf (yearEnd y) = y ∧
      yearStart y ≤ yearEnd y ∧ yearEnd y - yearStart y ≤ 365 := by
    intro y hy
    have := rangeAll_sound yearTableOK 10 0 400 yearTable_check y
      (Nat.zero_le _) (by omega)
    simp only [yearTableOK, Bool.and_eq_true, decide_eq_true_eq] at this
    exact ⟨this.1.1.1, this.1.1.2, this.1.2, this.2⟩
  have hEnd399 : yearEnd 399 = 146096 := rfl
  have h399 : yoeOf 146096 = 399 := by
    have := (tbl 399 (by omega)).2.1
    rwa [hEnd399] at this
  have hy : yoeOf doe ≤ 399 := by
    calc yoeOf doe ≤ yoeOf 146096 := yoeOf_mono h
    _ = 399 := h399
  refine ⟨hy, ?_, ?_⟩
  · by_contra hlt
    push_neg at hlt
    rcases Nat.eq_zero_or_pos (yoeOf doe) with h0 | hpos
    · rw [h0] at hlt
      simp [yearStart] at hlt
    · have hm1 : yoeOf doe - 1 ≤ 399 := by omega
      have hm : yoeOf doe - 1 + 1 = yoeOf doe := by omega
      have hEndPrev : yearEnd (yoeOf doe - 1) = yearStart (yoeOf doe) - 1 := by
        unfold yearEnd
        rw [if_neg (by omega), hm]
      have hstart_pos : 1 ≤ yearStart (yoeOf doe) := by
        unfold yearStart
        omega
      have hdoe_le : doe ≤ yearEnd (yoeOf doe - 1) := by
        rw [hEndPrev]
        omega
      have := yoeOf_mono hdoe_le
      rw [(tbl _ hm1).2.1] at this
      omega
  · have hle : doe ≤ yearEnd (yoeOf doe) := by
      by_contra hgt
      push_neg at hgt
      by_cases h399e : yoeOf doe = 399
      · rw [h399e, hEnd399] at hgt
        omega
      · have hEndNext : yearEnd (yoeOf doe) = yearStart (yoeOf doe + 1) - 1 := by
          unfold yearEnd
          rw [if_neg h399e]
        have hstart_pos : 1 ≤ yearStart (yoeOf doe + 1) := by
          unfold yearStart
          omega
        have hge : yearStart (yoeOf doe + 1) ≤ doe := by
          rw [hEndNext] at hgt
          omega
        have := yoeOf_mono hge
        rw [(tbl _ (by omega)).1] at this
        omega
    have := (tbl _ hy).2.2
    have := (tbl _ hy).2.1
    omega

/-- Every in-range time value breaks down into in-range civil components. -/
theorem epochToParts_bounds (ms : Int) (h1 : -8640000000000000 ≤ ms)
    (h2 : ms ≤ 8640000000000000) :
    1 ≤ (epochToParts ms).month ∧ (epochToParts ms).month ≤ 12 ∧
    1 ≤ (epochToParts ms).day ∧ (epochToParts ms).day ≤ 31 ∧
    (epochToParts ms).hour ≤ 23 ∧ (epochToParts ms).minute ≤ 59 ∧
    (epochToParts ms).second ≤ 59 ∧ (epochToParts ms).milli ≤ 999 ∧
    -999999 ≤ (epochToParts ms).year ∧ (epochToParts ms).year ≤ 999999 := by
  simp only [epochToParts]
  have hd : ((ms + 8640000000000000).toNat / 86400000 + 65428) % 146097 ≤
      146096 := by omega
  obtain ⟨hy, hs, hdoy⟩ := civ_bounds _ hd
  split_ifs <;> omega

/-- Every string produced by the Date model is an ISO-8601 date-time. -/
theorem jsToISOString_isISO (t : Int) (r : String)
    (h : jsToISOString t = some r) : IsISO8601 r := by
  unfold jsToISOString at h
  by_cases hr : t < -8640000000000000 ∨ 8640000000000000 < t
  · rw [if_pos hr] at h
    exact absurd h (by simp)
  · rw [if_neg hr] at h
    push_neg at hr
    exact ⟨epochToParts t, (Option.some.inj h).symm,
      epochToParts_bounds t (by omega) (by omega)⟩

/-! ## Claim theorems: timestamp normalization -/

/-- Claim C8 counterexample: the numeric input 0 lies below the
10,000,000,000 threshold, so by the claim it should be interpreted as unix
seconds and normalize to the epoch ISO string; the code treats 0 as falsy and
returns null instead. -/
theorem C8_formatTimestamp_cex :
    formatTimestamp parse0 (some (.vNum 0)) = none ∧
    (0 : Int) < 10000000000 ∧
    jsToISOString (0 * 1000) = some "1970-01-01T00:00:00.000Z" :=
  ⟨rfl, by decide, by decide⟩

/-- Claim C8 (amended): formatTimestamp is total and never throws — an
absent input, the falsy number 0 and the empty string normalize to null; a
truthy numeric input below 10,000,000,000 is interpreted as unix seconds
(scaled by 1000) and at or above the threshold as unix milliseconds, in both
cases rendered through the Date model (null when the scaled value is outside
the representable Date range); a string the date parser cannot parse
normalizes to null; and every non-null result is an ISO-8601 date-time
string. -/
theorem C8_formatTimestamp_total :
    (∀ dp : String → Option Int,
      formatTimestamp dp none = none ∧
      formatTimestamp dp (some (.vNum 0)) = none ∧
      formatTimestamp dp (some (.vStr "")) = none) ∧
    (∀ (dp : String → Option Int) (n : Int), n ≠ 0 → n < 10000000000 →
      formatTimestamp dp (some (.vNum n)) = jsToISOString (n * 1000)) ∧
    (∀ (dp : String → Option Int) (n : Int), 10000000000 ≤ n →
      formatTimestamp dp (some (.vNum n)) = jsToISOString n) ∧
    (∀ (dp : String → Option Int) (s : String), dp s = none →
      formatTimestamp dp (some (.vStr s)) = none) ∧
    (∀ (dp : String → Option Int) (v : Option JsVal) (r : String),
      formatTimestamp dp v = some r → IsISO8601 r) := by
  refine ⟨fun dp => ⟨rfl, rfl, rfl⟩, ?_, ?_, ?_, ?_⟩
  · intro dp n h0 hlt
    simp [formatTimestamp, jsValTruthy, h0, hlt]
  · intro dp n hge
    have h0 : n ≠ 0 := by omega
    have hnl : ¬(n < 10000000000) := by omega
    simp [formatTimestamp, jsValTruthy, h0, hnl]
  · intro dp s hdp
    by_cases hse : s = ""
    · subst hse; rfl
    · simp [formatTimestamp, jsValTruthy, hse, hdp]
  · intro dp v r h
    rcases v with _ | v
    · simp [formatTimestamp] at h
    · rcases v with s | n
      · by_cases hse : s = ""
        · subst hse
          simp [formatTimestamp, jsValTruthy] at h
        · have hb : (s == "") = false := by simpa using hse
          simp only [formatTimestamp, jsValTruthy, hb, Bool.not_false,
            Bool.not_eq_true', Bool.false_eq_true, if_false] at h
          rcases hdp : dp s with _ | t <;> rw [hdp] at h
          · simp at h
          · exact jsToISOString_isISO t r h
      · by_cases h0 : n = 0
        · subst h0
          simp [formatTimestamp, jsValTruthy] at h
        · have hb : (n == 0) = false := by simpa using h0
          simp only [formatTimestamp, jsValTruthy, hb, Bool.not_false,
            Bool.not_eq_true', Bool.false_eq_true, if_false] at h
          exact jsToISOString_isISO _ r h

/-- Claim C8 witness: the five amended parts instantiated — absence, one day
in unix seconds, the threshold value in milliseconds, an unparseable string,
and the ISO shape of the produced day-two string. -/
theorem C8_formatTimestamp_total_witness :
    formatTimestamp parse0 none = none ∧
    formatTimestamp parse0 (some (.vNum 86400)) = jsToISOString (86400 * 1000) ∧
    formatTimestamp parse0 (some (.vNum 10000000000)) =
      jsToISOString 10000000000 ∧
    formatTimestamp parse0 (some (.vStr "soon")) = none ∧
    IsISO8601 "1970-01-02T00:00:00.000Z" :=
  ⟨(C8_formatTimestamp_total.1 parse0).1,
   C8_formatTimestamp_total.2.1 parse0 86400 (by decide) (by decide),
   C8_formatTimestamp_total.2.2.1 parse0 10000000000 (by decide),
   C8_formatTimestamp_total.2.2.2.1 parse0 "soon" rfl,
   C8_formatTimestamp_total.2.2.2.2 parse0 (some (.vNum 86400))
     "1970-01-02T00:00:00.000Z" (by decide)⟩

end Weather
